import Mathlib

/-!
Verification of the region change-detection engine of `regionalertmonitor.cpp`.

This file gives a shallow embedding, in Lean 4, of the pure algorithmic core of
`RegionAlertMonitor` (src/src/regionalertmonitor.cpp) together with theorems
checking the specification claims about it.

Modelling conventions:
* `QImage` frames are modelled by `Frame`: an explicit width/height and an
  intensity function `Nat → Nat → Nat` (the preprocessor reduces everything to
  8-bit grayscale, so a single channel suffices).  A null `QImage` is `none`
  in `Option Frame`.
* `qreal`/`double` arithmetic is modelled by exact rationals `ℚ`.  All
  comparisons exercised by the claims are far from representation boundaries,
  so exact arithmetic agrees with the C++ doubles there.
* `QString` is Lean `String`; `QString::trimmed()` is `qtTrimmed` (whitespace
  stripped from both ends), written over the character list so that it
  computes by kernel reduction.
* Machine integers (`int`, `qint64`) are `ℤ` (or `ℕ` for counters that the
  code keeps non-negative); none of the quantities involved can overflow in
  the scenarios the claims quantify over.
* OS-dependent capture steps (DWM thumbnail mirroring, GDI blits, window
  geometry queries) are oracle parameters; every guard and state update that
  lives in the repository's own code is embedded explicitly.
-/

set_option maxRecDepth 1000000

/-- Qt `qBound(lo, v, hi) = qMax(lo, qMin(hi, v))` on integers. -/
def qBoundZ (lo v hi : ℤ) : ℤ := max lo (min hi v)

/-- Qt `qBound(lo, v, hi) = qMax(lo, qMin(hi, v))` on rationals. -/
def qBoundQ (lo v hi : ℚ) : ℚ := max lo (min hi v)

/-- C `std::lround`: round half away from zero. -/
def qlround (q : ℚ) : ℤ := if 0 ≤ q then ⌊q + 1/2⌋ else ⌈q - 1/2⌉

/-- QString::trimmed(): strip whitespace from both ends. -/
def qtTrimmed (s : String) : String :=
  String.mk (((s.data.dropWhile Char.isWhitespace).reverse.dropWhile Char.isWhitespace).reverse)

/-- QString::toLower(), used by `normalizeCharacterKey`. -/
def qtToLower (s : String) : String :=
  String.mk (s.data.map Char.toLower)

/-- Constant `kConsecutiveFramesRequired` (regionalertmonitor.cpp line 18). -/
def kConsecutiveFramesRequired : ℕ := 2

/-- Constant `kCaptureFailureResetThreshold` (line 19). -/
def kCaptureFailureResetThreshold : ℕ := 3

/-- Constant `kPreprocessSize` (line 20). -/
def kPreprocessSize : ℕ := 96

/-- Constant `kPixelDeltaThreshold` (line 21). -/
def kPixelDeltaThreshold : ℕ := 20

/-- A grayscale raster frame: explicit size plus an intensity sample function.
A null `QImage` is represented as `none : Option Frame` at use sites. -/
@[ext] structure Frame where
  width : ℕ
  height : ℕ
  pixel : ℕ → ℕ → ℕ

/-- A constant-intensity frame, used to build concrete test frames. -/
def constFrame (w h v : ℕ) : Frame := ⟨w, h, fun _ _ => v⟩

/-- The changed-pixel count of `RegionAlertMonitor::changedPercent`
(lines 1372-1385): pixels whose absolute grayscale delta is at least
`kPixelDeltaThreshold`. -/
def countChangedPixels (p c : Frame) : ℕ :=
  ((List.range p.height).map (fun y =>
    ((List.range p.width).filter (fun x =>
      decide (kPixelDeltaThreshold ≤ Int.natAbs ((c.pixel x y : ℤ) - (p.pixel x y : ℤ))))).length)).sum

/-- `RegionAlertMonitor::changedPercent` (lines 1360-1389).  Null or
size-mismatched frames score 100; degenerate equal sizes score 0; otherwise
`100 * changedPixels / totalPixels`. -/
def changedPercent (previous current : Option Frame) : ℚ :=
  match previous, current with
  | some p, some c =>
    if p.width ≠ c.width ∨ p.height ≠ c.height then 100
    else if p.width = 0 ∨ p.height = 0 then 0
    else ((countChangedPixels p c : ℕ) : ℚ) * 100 / ((p.width * p.height : ℕ) : ℚ)
  | _, _ => 100

/-- The resampling step of `preprocessForDiff`: grayscale conversion followed
by a non-aspect-preserving rescale to `kPreprocessSize × kPreprocessSize`
(`Qt::FastTransformation`, i.e. nearest-neighbour; the exact source pixel
chosen by Qt's incremental scaler is immaterial to the claims, which only
evaluate it at 96×96 inputs, where any rescale is the identity). -/
def resampleFrame (f : Frame) : Frame :=
  ⟨kPreprocessSize, kPreprocessSize,
   fun x y => f.pixel (x * f.width / kPreprocessSize) (y * f.height / kPreprocessSize)⟩

/-- `RegionAlertMonitor::preprocessForDiff` (lines 1350-1358): null in, null
out; otherwise grayscale + rescale to the fixed small square. -/
def preprocessForDiff (input : Option Frame) : Option Frame :=
  match input with
  | none => none
  | some f => some (resampleFrame f)

/-- A `QRectF`: origin plus (possibly negative) width and height, rationals. -/
structure RectQ where
  x : ℚ
  y : ℚ
  w : ℚ
  h : ℚ
deriving DecidableEq

/-- QRectF::left(). -/
def RectQ.left (r : RectQ) : ℚ := r.x

/-- QRectF::top(). -/
def RectQ.top (r : RectQ) : ℚ := r.y

/-- QRectF::right(). -/
def RectQ.right (r : RectQ) : ℚ := r.x + r.w

/-- QRectF::bottom(). -/
def RectQ.bottom (r : RectQ) : ℚ := r.y + r.h

/-- QRectF::normalized(): flip a negative width or height. -/
def RectQ.normalized (r : RectQ) : RectQ :=
  ⟨if r.w < 0 then r.x + r.w else r.x,
   if r.h < 0 then r.y + r.h else r.y,
   |r.w|, |r.h|⟩

/-- QRectF built from two corner points, as in
`QRectF(QPointF(l, t), QPointF(r, b))`. -/
def RectQ.fromCorners (l t r b : ℚ) : RectQ := ⟨l, t, r - l, b - t⟩

/-- A `QRect` with integer origin and extent. -/
structure RectZ where
  x : ℤ
  y : ℤ
  w : ℤ
  h : ℤ
deriving DecidableEq

/-- `RegionAlertMonitor::regionToPixels` (lines 1059-1085): normalize and
clamp the rectangle into `[0,1]`, scale by the reference size, and clamp the
integer edges so the result is at least one pixel in each axis and inside the
reference bounds.  Degenerate reference sizes yield the empty `QRect()`. -/
def regionToPixels (normalizedRegion : RectQ) (sourceW sourceH : ℤ) : RectZ :=
  if sourceW ≤ 0 ∨ sourceH ≤ 0 then ⟨0, 0, 0, 0⟩
  else
    let n := normalizedRegion.normalized
    let left := qBoundQ 0 n.left 1
    let top := qBoundQ 0 n.top 1
    let right := qBoundQ 0 n.right 1
    let bottom := qBoundQ 0 n.bottom 1
    let leftPx := qBoundZ 0 ⌊left * sourceW⌋ (sourceW - 1)
    let topPx := qBoundZ 0 ⌊top * sourceH⌋ (sourceH - 1)
    let rightPx := qBoundZ (leftPx + 1) ⌈right * sourceW⌉ sourceW
    let bottomPx := qBoundZ (topPx + 1) ⌈bottom * sourceH⌉ sourceH
    ⟨leftPx, topPx, rightPx - leftPx, bottomPx - topPx⟩

/-- The symmetric aspect-ratio trim inside
`mapSourceRegionToThumbnailRegion` (lines 1120-1146): when the pixel crop's
aspect differs from the thumbnail surface's aspect, trim the wider axis so
the remaining crop matches the destination aspect; returns the four corners
of the trimmed crop. -/
def aspectTrimmedCrop (cropLeft cropTop cropRight cropBottom thumbW thumbH : ℤ) :
    ℤ × ℤ × ℤ × ℤ :=
  let cropWidth := max 1 (cropRight - cropLeft)
  let cropHeight := max 1 (cropBottom - cropTop)
  let sourceAspect : ℚ := (cropWidth : ℚ) / (cropHeight : ℚ)
  let destinationAspect : ℚ := (thumbW : ℚ) / (thumbH : ℚ)
  if destinationAspect < sourceAspect then
    let targetWidth := min (max 1 (qlround ((cropHeight : ℚ) * destinationAspect))) cropWidth
    let trimX := (cropWidth - targetWidth) / 2
    (cropLeft + trimX, cropTop, cropLeft + trimX + targetWidth, cropBottom)
  else if sourceAspect < destinationAspect then
    let targetHeight := min (max 1 (qlround ((cropWidth : ℚ) / destinationAspect))) cropHeight
    let trimY := (cropHeight - targetHeight) / 2
    (cropLeft, cropTop + trimY, cropRight, cropTop + trimY + targetHeight)
  else (cropLeft, cropTop, cropRight, cropBottom)

/-- Lines 1100-1121 of `mapSourceRegionToThumbnailRegion`: normalize and
clamp the crop rectangle into `[0,1]`, then pixelize its four edges against
the source client size, clamping so the pixel crop is at least one pixel in
each axis and inside the source bounds. -/
def cropPixelCorners (thumbnailCrop : RectQ) (sourceW sourceH : ℤ) : ℤ × ℤ × ℤ × ℤ :=
  let n := thumbnailCrop.normalized
  let cropLeftNorm := qBoundQ 0 n.left 1
  let cropTopNorm := qBoundQ 0 n.top 1
  let cropRightNorm := qBoundQ 0 n.right 1
  let cropBottomNorm := qBoundQ 0 n.bottom 1
  let cropLeft := qBoundZ 0 ⌊cropLeftNorm * sourceW⌋ (sourceW - 1)
  let cropTop := qBoundZ 0 ⌊cropTopNorm * sourceH⌋ (sourceH - 1)
  let cropRight := qBoundZ (cropLeft + 1) ⌈cropRightNorm * sourceW⌉ sourceW
  let cropBottom := qBoundZ (cropTop + 1) ⌈cropBottomNorm * sourceH⌉ sourceH
  (cropLeft, cropTop, cropRight, cropBottom)

/-- `RegionAlertMonitor::mapSourceRegionToThumbnailRegion` (lines 1087-1177).
Returns `none` for the empty `QRectF()` results (degenerate inputs, empty
source pixel region, zero overlap, or an invalid mapped rectangle). -/
def mapSourceRegionToThumbnailRegion (sourceRegion thumbnailCrop : RectQ)
    (sourceW sourceH thumbW thumbH : ℤ) : Option RectQ :=
  if sourceW ≤ 0 ∨ sourceH ≤ 0 ∨ thumbW ≤ 0 ∨ thumbH ≤ 0 then none
  else
    let sourcePixelRegion := regionToPixels sourceRegion sourceW sourceH
    if sourcePixelRegion.w ≤ 0 ∨ sourcePixelRegion.h ≤ 0 then none
    else
      match cropPixelCorners thumbnailCrop sourceW sourceH with
      | (cropLeft, cropTop, cropRight, cropBottom) =>
      match aspectTrimmedCrop cropLeft cropTop cropRight cropBottom thumbW thumbH with
      | (tLeft, tTop, tRight, tBottom) =>
        let effectiveWidth := max 1 (tRight - tLeft)
        let effectiveHeight := max 1 (tBottom - tTop)
        let sourceLeft := sourcePixelRegion.x
        let sourceTop := sourcePixelRegion.y
        let sourceRight := sourcePixelRegion.x + sourcePixelRegion.w
        let sourceBottom := sourcePixelRegion.y + sourcePixelRegion.h
        let overlapLeft := max sourceLeft tLeft
        let overlapTop := max sourceTop tTop
        let overlapRight := min sourceRight tRight
        let overlapBottom := min sourceBottom tBottom
        if overlapRight ≤ overlapLeft ∨ overlapBottom ≤ overlapTop then none
        else
          let mappedLeft := qBoundQ 0 (((overlapLeft - tLeft : ℤ) : ℚ) / ((effectiveWidth : ℤ) : ℚ)) 1
          let mappedTop := qBoundQ 0 (((overlapTop - tTop : ℤ) : ℚ) / ((effectiveHeight : ℤ) : ℚ)) 1
          let mappedRight := qBoundQ 0 (((overlapRight - tLeft : ℤ) : ℚ) / ((effectiveWidth : ℤ) : ℚ)) 1
          let mappedBottom := qBoundQ 0 (((overlapBottom - tTop : ℤ) : ℚ) / ((effectiveHeight : ℤ) : ℚ)) 1
          let mapped := (RectQ.fromCorners mappedLeft mappedTop mappedRight mappedBottom).normalized
          if mapped.w ≤ 0 ∨ mapped.h ≤ 0 then none else some mapped

/-- A crop rectangle that is degenerate in the sense of §4.1 step (4) of the
spec: its normalized width or height is below any positive epsilon, i.e.
zero. -/
def cropDegenerate (crop : RectQ) : Prop :=
  crop.normalized.w = 0 ∨ crop.normalized.h = 0

/-- The full-frame rectangle in normalized coordinates. -/
def fullFrameRectQ : RectQ := ⟨0, 0, 1, 1⟩

/-- One alert emission of the `regionAlertTriggered(characterName, ruleId,
label, scorePercent)` signal (regionalertmonitor.h lines 27-28). -/
structure AlertEvent where
  characterName : String
  ruleId : String
  label : String
  scorePercent : ℚ
deriving DecidableEq

/-- A `RegionAlertRule` snapshot as consumed by the monitor: id, character
name, label, normalized region, threshold percent, enabled flag. -/
structure RegionAlertRule where
  id : String
  characterName : String
  label : String
  regionNormalized : RectQ
  thresholdPercent : ℤ
  enabled : Bool
deriving DecidableEq

/-- `RegionAlertMonitor::RuleState` (header lines 34-39 plus the
`capturePipelineKey` field used throughout regionalertmonitor.cpp). -/
structure RuleState where
  baselineFrame : Option Frame
  consecutiveFramesAboveThreshold : ℕ
  cooldownUntilMs : ℤ
  consecutiveCaptureFailures : ℕ
  capturePipelineKey : String

/-- The default-constructed `RuleState`: no baseline, zero counters, no
cooldown, empty pipeline key. -/
def defaultRuleState : RuleState := ⟨none, 0, 0, 0, ""⟩

/-- The per-entry effect of `noteCaptureFailure` (lines 899-911): increment
the failure counter; once it reaches `kCaptureFailureResetThreshold`, perform
the `resetRuleState` clearing on the same entry. -/
def noteFailureState (s : RuleState) : RuleState :=
  let s1 : RuleState := {s with consecutiveCaptureFailures := s.consecutiveCaptureFailures + 1}
  if kCaptureFailureResetThreshold ≤ s1.consecutiveCaptureFailures then defaultRuleState else s1

/-- Lines 805-814 of `pollRules`: adopt the (trimmed) capture pipeline key;
if it differs from the stored one, clear the baseline and the streak. -/
def applyPipelineKey (state : RuleState) (capturePipelineKey : String) : RuleState :=
  if state.capturePipelineKey ≠ capturePipelineKey then
    {state with capturePipelineKey := capturePipelineKey,
                baselineFrame := none,
                consecutiveFramesAboveThreshold := 0}
  else state

/-- Lines 835-886 of `pollRules`: the comparison and state transition once a
valid, size-matching baseline exists.  `score` and `threshold` are written
inline; the C++ binds them to locals, which is observationally identical. -/
def compareAndUpdate (cooldownMs now : ℤ) (rule : RegionAlertRule) (state : RuleState)
    (baseline currentFrame : Frame) : RuleState × Option AlertEvent :=
  if (qBoundZ 1 rule.thresholdPercent 100 : ℚ) ≤ changedPercent (some baseline) (some currentFrame) then
    if state.cooldownUntilMs ≤ now ∧
       kConsecutiveFramesRequired ≤ state.consecutiveFramesAboveThreshold + 1 then
      ({state with cooldownUntilMs := now + cooldownMs,
                   consecutiveFramesAboveThreshold := 0,
                   baselineFrame := some currentFrame},
       some ⟨qtTrimmed rule.characterName, rule.id, rule.label,
             changedPercent (some baseline) (some currentFrame)⟩)
    else if now < state.cooldownUntilMs then
      ({state with consecutiveFramesAboveThreshold := 0,
                   baselineFrame := some currentFrame}, none)
    else
      ({state with consecutiveFramesAboveThreshold := state.consecutiveFramesAboveThreshold + 1},
       none)
  else
    ({state with consecutiveFramesAboveThreshold := 0,
                 baselineFrame := some currentFrame}, none)

/-- Lines 818-886 of `pollRules`: preprocess the captured image; (re)install
the baseline when absent or size-mismatched, otherwise compare. -/
def evaluateAfterKey (cooldownMs now : ℤ) (rule : RegionAlertRule) (state : RuleState)
    (clientImage : Frame) : RuleState × Option AlertEvent :=
  match preprocessForDiff (some clientImage) with
  | none => (noteFailureState state, none)
  | some currentFrame =>
    match state.baselineFrame with
    | none =>
      ({state with baselineFrame := some currentFrame,
                   consecutiveFramesAboveThreshold := 0}, none)
    | some baseline =>
      if baseline.width ≠ currentFrame.width ∨ baseline.height ≠ currentFrame.height then
        ({state with baselineFrame := some currentFrame,
                     consecutiveFramesAboveThreshold := 0}, none)
      else compareAndUpdate cooldownMs now rule state baseline currentFrame

/-- Lines 805-886 of `pollRules`: the whole per-rule processing of one tick
once a capture has succeeded with image `clientImage` and method string
`captureMethod` — pipeline-key discontinuity check, failure-counter reset,
preprocessing, baseline handling, comparison and alert emission. -/
def evaluateCapturedFrame (cooldownMs now : ℤ) (rule : RegionAlertRule) (state : RuleState)
    (clientImage : Frame) (captureMethod : String) : RuleState × Option AlertEvent :=
  evaluateAfterKey cooldownMs now rule
    {applyPipelineKey state (qtTrimmed captureMethod) with consecutiveCaptureFailures := 0}
    clientImage

/-- Lines 472-477: `captureFromInternalCroppedThumbnail` fails outright when
the source window is unresolved, not a window, or minimized
(`!sourceHwnd || !IsWindow(sourceHwnd) || IsIconic(sourceHwnd)`); the rest of
that capture path (client size query, DWM surface, GDI capture) is
OS-dependent and is the oracle `rest`. -/
def captureFromInternalCroppedThumbnail (windowAvailable : Bool)
    (rest : Option (Frame × String)) : Option (Frame × String) :=
  if windowAvailable then rest else none

/-- Lines 740-795 of `pollRules`, for a single enabled rule with a non-empty
character name: try the internal cropped-thumbnail capture (guarded on the
source window), fall back to the visible-thumbnail capture (which does not
use the source window handle at all), and on total failure call
`noteCaptureFailure` for the rule and move on without comparing or alerting.
`fallbackCapture` is the oracle for `captureFromVisibleThumbnailFallback`,
whose inputs are the thumbnail-widget map and OS surfaces, not the source
window. -/
def pollOneRule (cooldownMs now : ℤ) (windowAvailable : Bool)
    (internalRest fallbackCapture : Option (Frame × String))
    (rule : RegionAlertRule) (state : RuleState) : RuleState × Option AlertEvent :=
  match captureFromInternalCroppedThumbnail windowAvailable internalRest with
  | some captured => evaluateCapturedFrame cooldownMs now rule state captured.1 captured.2
  | none =>
    match fallbackCapture with
    | some captured => evaluateCapturedFrame cooldownMs now rule state captured.1 captured.2
    | none => (noteFailureState state, none)

/-- The rule-state store `m_ruleStateById`, as an association list keyed by
the effective rule key. -/
def StateMap : Type := List (String × RuleState)

/-- `m_ruleStateById[key]` read access: the stored entry, or the
default-constructed state (QHash `operator[]` semantics on a miss). -/
def stateLookup : StateMap → String → RuleState
  | [], _ => defaultRuleState
  | p :: rest, k => if p.1 = k then p.2 else stateLookup rest k

/-- Whether the store holds an entry for `key`. -/
def stateContains : StateMap → String → Bool
  | [], _ => false
  | p :: rest, k => if p.1 = k then true else stateContains rest k

/-- Store `v` under `key`: overwrite the existing entry or append a new one
(QHash `operator[]` insert-on-miss followed by mutation). -/
def stateInsert : StateMap → String → RuleState → StateMap
  | [], k, v => [(k, v)]
  | p :: rest, k, v => if p.1 = k then (k, v) :: rest else p :: stateInsert rest k v

/-- `RegionAlertMonitor::resetRuleState` (lines 913-920): clear baseline,
streak, cooldown, failure counter and pipeline key of the keyed entry; the
entry itself stays in the store. -/
def resetRuleState (m : StateMap) (ruleKey : String) : StateMap :=
  stateInsert m ruleKey defaultRuleState

/-- `RegionAlertMonitor::noteCaptureFailure` (lines 899-911): increment the
keyed entry's `consecutiveCaptureFailures` (creating the entry on a miss);
once the counter reaches `kCaptureFailureResetThreshold`, `resetRuleState`
the same key. -/
def noteCaptureFailure (m : StateMap) (ruleKey : String) : StateMap :=
  let state := stateLookup m ruleKey
  let s1 : RuleState := {state with consecutiveCaptureFailures := state.consecutiveCaptureFailures + 1}
  let m1 := stateInsert m ruleKey s1
  if kCaptureFailureResetThreshold ≤ s1.consecutiveCaptureFailures then resetRuleState m1 ruleKey
  else m1

/-- Qt `.arg(value, 0, 'f', 4)` fixed-point formatting with four decimals,
used by `effectiveRuleKey`.  Rounding of the exact rational to four decimals
is modelled as round-to-nearest (the doubles the code formats are never at a
tie, so the tie direction is immaterial); negative values render with a
leading minus sign. -/
def formatScaledF4 (scaled : ℤ) : String :=
  let mag : ℕ := scaled.natAbs
  let intPart : ℕ := mag / 10000
  let fracPart : ℕ := mag % 10000
  let fracDigits : String := toString fracPart
  let fracPadded : String :=
    String.mk (List.replicate (4 - fracDigits.length) '0') ++ fracDigits
  (if scaled < 0 then "-" else "") ++ toString intPart ++ "." ++ fracPadded

/-- Qt four-decimal fixed formatting: scale to ten-thousandths, round to the
nearest integer, and render. -/
def formatF4 (q : ℚ) : String := formatScaledF4 (round (q * 10000))

/-- `RegionAlertMonitor::effectiveRuleKey` (lines 1047-1057): the trimmed id
when non-empty, else the composite
`char|label|x|y|w|h` with the region components formatted to four decimal
places. -/
def effectiveRuleKey (rule : RegionAlertRule) : String :=
  if qtTrimmed rule.id ≠ "" then qtTrimmed rule.id
  else
    qtTrimmed rule.characterName ++ "|" ++ qtTrimmed rule.label ++ "|" ++
    formatF4 rule.regionNormalized.x ++ "|" ++ formatF4 rule.regionNormalized.y ++ "|" ++
    formatF4 rule.regionNormalized.w ++ "|" ++ formatF4 rule.regionNormalized.h

/-- `RegionAlertMonitor::normalizeCharacterKey` (lines 392-394). -/
def normalizeCharacterKey (characterName : String) : String :=
  qtToLower (qtTrimmed characterName)

/-- The configuration snapshot read by `reloadFromConfig` (lines 316-321). -/
structure RegionAlertConfig where
  regionAlertsEnabled : Bool
  pollIntervalMs : ℤ
  cooldownMs : ℤ
  rules : List RegionAlertRule

/-- The mutable engine state touched by `reloadFromConfig` and
`updateTimerState`: flags and clamps, the rule list, the per-rule state store,
the per-character internal capture surfaces (modelled by their keys), and the
poll timer. -/
structure MonitorState where
  enabled : Bool
  pollIntervalMs : ℤ
  cooldownMs : ℤ
  rules : List RegionAlertRule
  ruleStateById : StateMap
  internalCaptureSurfacesByCharacter : List String
  pollTimerRunning : Bool
  pollTimerIntervalMs : ℤ

/-- `RegionAlertMonitor::updateTimerState` (lines 889-897): start the timer
when enabled; otherwise stop it, clear every rule-state entry, and destroy
every internal capture surface. -/
def updateTimerState (m : MonitorState) : MonitorState :=
  if m.enabled then
    {m with pollTimerRunning := true, pollTimerIntervalMs := m.pollIntervalMs}
  else
    {m with pollTimerRunning := false,
            ruleStateById := [],
            internalCaptureSurfacesByCharacter := []}

/-- `RegionAlertMonitor::reloadFromConfig` (lines 295-372), omitting the
debug-log file handling (I/O with no effect on monitor state): read the
config wholesale with the interval and cooldown clamps, prune rule-state
entries whose key is no longer active, prune capture surfaces whose
character is no longer referenced by an enabled rule, then
`updateTimerState`. -/
def reloadFromConfig (cfg : RegionAlertConfig) (m : MonitorState) : MonitorState :=
  let m1 : MonitorState :=
    {m with enabled := cfg.regionAlertsEnabled,
            pollIntervalMs := qBoundZ 100 cfg.pollIntervalMs 10000,
            cooldownMs := qBoundZ 0 cfg.cooldownMs 60000,
            rules := cfg.rules}
  let activeRuleKeys := cfg.rules.map effectiveRuleKey
  let m2 : MonitorState :=
    {m1 with ruleStateById := m1.ruleStateById.filter (fun p => activeRuleKeys.contains p.1)}
  let activeCharacterKeys :=
    ((cfg.rules.filter (fun r => r.enabled)).map
      (fun r => normalizeCharacterKey r.characterName)).filter (fun c => c ≠ "")
  let m3 : MonitorState :=
    {m2 with internalCaptureSurfacesByCharacter :=
      m2.internalCaptureSurfacesByCharacter.filter (fun c => activeCharacterKeys.contains c)}
  updateTimerState m3

/-- One poll tick's inputs for a rule during a cooldown scenario: the tick
time, the successfully captured frame and the capture method string. -/
structure CooldownTick where
  now : ℤ
  frame : Frame
  method : String

/-- Run `evaluateCapturedFrame` over a sequence of successful-capture ticks,
collecting every emitted alert in order. -/
def runTicks (cooldownMs : ℤ) (rule : RegionAlertRule) :
    List CooldownTick → RuleState → RuleState × List AlertEvent
  | [], s => (s, [])
  | t :: ts, s =>
    let step := evaluateCapturedFrame cooldownMs t.now rule s t.frame t.method
    let rest := runTicks cooldownMs rule ts step.1
    (rest.1, step.2.toList ++ rest.2)

/-- The successive post-tick states of `runTicks`. -/
def statesAfter (cooldownMs : ℤ) (rule : RegionAlertRule) :
    List CooldownTick → RuleState → List RuleState
  | [], _ => []
  | t :: ts, s =>
    let s1 := (evaluateCapturedFrame cooldownMs t.now rule s t.frame t.method).1
    s1 :: statesAfter cooldownMs rule ts s1

/-- The side conditions of one above-threshold-during-cooldown tick: the tick
falls strictly before the state's cooldown deadline, the capture method
matches the stored pipeline key, the frame is already preprocessed-size, an
established preprocessed-size baseline exists, and the score against that
baseline is at or above the clamped threshold. -/
def absorbTickOk (rule : RegionAlertRule) (s : RuleState) (t : CooldownTick) : Bool :=
  decide (t.now < s.cooldownUntilMs) &&
  decide (qtTrimmed t.method = s.capturePipelineKey) &&
  decide (t.frame.width = kPreprocessSize) && decide (t.frame.height = kPreprocessSize) &&
  (match s.baselineFrame with
   | some b => decide (b.width = kPreprocessSize) && decide (b.height = kPreprocessSize)
   | none => false) &&
  decide ((qBoundZ 1 rule.thresholdPercent 100 : ℚ) ≤
          changedPercent s.baselineFrame (some t.frame))

/-- Every tick of the sequence, against the state as it evolves, is an
above-threshold tick strictly inside the cooldown window. -/
def allAbsorb (cooldownMs : ℤ) (rule : RegionAlertRule) :
    RuleState → List CooldownTick → Bool
  | _, [] => true
  | s, t :: ts =>
    absorbTickOk rule s t &&
    allAbsorb cooldownMs rule (evaluateCapturedFrame cooldownMs t.now rule s t.frame t.method).1 ts

/-- Modelled from the spec: the state trace the claim predicts for
above-threshold ticks during cooldown — on every tick the streak is zeroed
and the current frame adopted as the new baseline (the successful capture
also zeroes the failure counter), with everything else unchanged. -/
def absorbTrace (s : RuleState) : List CooldownTick → List RuleState
  | [] => []
  | t :: ts =>
    let s1 : RuleState := {s with consecutiveCaptureFailures := 0,
                                  consecutiveFramesAboveThreshold := 0,
                                  baselineFrame := some t.frame}
    s1 :: absorbTrace s1 ts

/-- Concrete disabled reload configuration for the C9 witness. -/
def cfgDisabled : RegionAlertConfig := ⟨false, 500, 5000, []⟩

/-- Concrete pre-reload monitor state for the C9 witness: timer running, one
rule-state entry with a live cooldown and failures, one capture surface. -/
def monitorBefore : MonitorState :=
  ⟨true, 500, 5000, [],
   [("k", {defaultRuleState with cooldownUntilMs := 99999, consecutiveCaptureFailures := 2})],
   ["pilot"], true, 500⟩

/-- First C10 witness rule: empty id, `x = 0.1234`. -/
def ruleKeyA : RegionAlertRule := ⟨"", "Pilot", "L", ⟨1234/10000, 0, 1/2, 1/2⟩, 50, true⟩

/-- Second C10 witness rule: whitespace id (trims empty), `x = 0.12341`,
which differs from `ruleKeyA.regionNormalized.x` only beyond the fourth
decimal place. -/
def ruleKeyB : RegionAlertRule := ⟨" ", "Pilot", "L", ⟨12341/100000, 0, 1/2, 1/2⟩, 50, true⟩

/-- An all-zero preprocessed-size frame for concrete scenarios. -/
def zeroFrame96 : Frame := constFrame 96 96 0

/-- An all-255 preprocessed-size frame for concrete scenarios. -/
def fullFrame96 : Frame := constFrame 96 96 255

/-- A concrete enabled rule with threshold 50. -/
def ruleFifty : RegionAlertRule := ⟨"r1", "Pilot", "L", ⟨0, 0, 1/2, 1/2⟩, 50, true⟩

/-- A concrete state with an established baseline, zero streak, no cooldown,
no failures, pipeline key `"k"`. -/
def baselineReadyState : RuleState := ⟨some zeroFrame96, 0, 0, 0, "k"⟩

/-- A concrete stale-pipeline state: established baseline, nonzero streak,
live cooldown, two failures, old pipeline key. -/
def staleKeyState : RuleState := ⟨some zeroFrame96, 1, 7777, 2, "old"⟩

/-- A concrete state cooling down until time 5000 with an established
baseline. -/
def coolingState : RuleState := ⟨some zeroFrame96, 0, 5000, 0, "k"⟩

/-- One concrete above-threshold tick inside the cooldown window. -/
def coolingTicks : List CooldownTick := [⟨1000, fullFrame96, "k"⟩]

/-- A concrete state one above-threshold tick away from triggering:
established baseline, streak 1, no cooldown, no failures. -/
def risingState : RuleState := ⟨some zeroFrame96, 1, 0, 0, "k"⟩

/-- A fully degenerate crop rectangle (zero width and height). -/
def pointCrop : RectQ := ⟨1/4, 1/4, 0, 0⟩

/-- A source region whose pixel rectangle misses `pointCrop`'s pixel. -/
def missRegion : RectQ := ⟨1/2, 1/2, 2/5, 2/5⟩

/-- A source region whose pixel rectangle covers `pointCrop`'s pixel. -/
def hitRegion : RectQ := ⟨0, 0, 1/2, 1/2⟩

/-- Preprocessing a frame that is already `96×96` grayscale is the identity. -/
theorem resampleFrame_id (f : Frame) (hw : f.width = kPreprocessSize)
    (hh : f.height = kPreprocessSize) : resampleFrame f = f := by
  refine Frame.ext ?_ ?_ ?_
  · simp [resampleFrame, hw]
  · simp [resampleFrame, hh]
  · funext x y
    simp only [resampleFrame, hw, hh]
    rw [Nat.mul_div_cancel x (by norm_num [kPreprocessSize]),
        Nat.mul_div_cancel y (by norm_num [kPreprocessSize])]

/-- The effect of `resetRuleState` (lines 913-920) on the affected entry:
every field back to its default. -/
theorem defaultRuleState_fields :
    defaultRuleState.baselineFrame = none ∧
    defaultRuleState.consecutiveFramesAboveThreshold = 0 ∧
    defaultRuleState.cooldownUntilMs = 0 ∧
    defaultRuleState.consecutiveCaptureFailures = 0 ∧
    defaultRuleState.capturePipelineKey = "" := ⟨rfl, rfl, rfl, rfl, rfl⟩

/-- Looking up the key just stored returns the stored state. -/
theorem stateLookup_stateInsert (m : StateMap) (k : String) (v : RuleState) :
    stateLookup (stateInsert m k v) k = v := by
  induction m with
  | nil => simp [stateInsert, stateLookup]
  | cons p rest ih =>
    by_cases h : p.1 = k
    · simp [stateInsert, stateLookup, h]
    · simp [stateInsert, stateLookup, h, ih]

/-- The key just stored is present in the store. -/
theorem stateContains_stateInsert (m : StateMap) (k : String) (v : RuleState) :
    stateContains (stateInsert m k v) k = true := by
  induction m with
  | nil => simp [stateInsert, stateContains]
  | cons p rest ih =>
    by_cases h : p.1 = k
    · simp [stateInsert, stateContains, h]
    · simp [stateInsert, stateContains, h, ih]

/-- Claim C4: every call to `noteCaptureFailure` increments the keyed entry's
`consecutiveCaptureFailures` by one, and as soon as that counter reaches
`kCaptureFailureResetThreshold = 3` the entry's baseline, streak, cooldown
deadline, failure counter and capture pipeline key are all reset to their
default cleared/zero values (`defaultRuleState`), while the entry itself
remains present in the store. -/
theorem noteCaptureFailure_spec (m : StateMap) (k : String) :
    stateContains (noteCaptureFailure m k) k = true ∧
    stateLookup (noteCaptureFailure m k) k =
      (if kCaptureFailureResetThreshold ≤ (stateLookup m k).consecutiveCaptureFailures + 1
       then defaultRuleState
       else {stateLookup m k with
              consecutiveCaptureFailures := (stateLookup m k).consecutiveCaptureFailures + 1}) := by
  by_cases h : kCaptureFailureResetThreshold ≤ (stateLookup m k).consecutiveCaptureFailures + 1
  · simp [noteCaptureFailure, resetRuleState, h,
          stateLookup_stateInsert, stateContains_stateInsert]
  · simp [noteCaptureFailure, resetRuleState, h,
          stateLookup_stateInsert, stateContains_stateInsert]

/-- Claim C7: `changedPercent` returns exactly 100 whenever either frame is
absent (null) or the two frames' dimensions differ; no pixel content enters
the result in that case (the frames are arbitrary). -/
theorem changedPercent_mismatch_100 :
    (∀ c, changedPercent none c = 100) ∧
    (∀ p, changedPercent p none = 100) ∧
    (∀ pf cf : Frame, pf.width ≠ cf.width ∨ pf.height ≠ cf.height →
      changedPercent (some pf) (some cf) = 100) := by
  refine ⟨fun c => by cases c <;> rfl, fun p => by cases p <;> rfl, fun pf cf h => ?_⟩
  simp [changedPercent, h]

/-- Witness for C7 at concrete inputs: a `2×2` frame against a `3×2` frame of
identical pixel content scores exactly 100. -/
theorem changedPercent_mismatch_100_witness :
    ((constFrame 2 2 0).width ≠ (constFrame 3 2 0).width ∨
     (constFrame 2 2 0).height ≠ (constFrame 3 2 0).height) ∧
    changedPercent (some (constFrame 2 2 0)) (some (constFrame 3 2 0)) = 100 :=
  ⟨Or.inl (by decide), changedPercent_mismatch_100.2.2 _ _ (Or.inl (by decide))⟩

/-- Claim C9: a `reloadFromConfig` with region alerts disabled stops the poll
timer, deletes every per-rule state entry, and destroys every internal
capture surface; every subsequent rule-state lookup yields the
default-constructed state, so re-enabling starts every rule uninitialized
with no cooldown carried over. -/
theorem reloadFromConfig_disabled_clears (cfg : RegionAlertConfig) (m : MonitorState)
    (h : cfg.regionAlertsEnabled = false) :
    (reloadFromConfig cfg m).pollTimerRunning = false ∧
    (reloadFromConfig cfg m).ruleStateById = [] ∧
    (reloadFromConfig cfg m).internalCaptureSurfacesByCharacter = [] ∧
    ∀ k, stateLookup (reloadFromConfig cfg m).ruleStateById k = defaultRuleState := by
  have hr : reloadFromConfig cfg m =
      {m with enabled := false,
              pollIntervalMs := qBoundZ 100 cfg.pollIntervalMs 10000,
              cooldownMs := qBoundZ 0 cfg.cooldownMs 60000,
              rules := cfg.rules,
              pollTimerRunning := false,
              ruleStateById := [],
              internalCaptureSurfacesByCharacter := []} := by
    simp [reloadFromConfig, updateTimerState, h]
  rw [hr]
  exact ⟨rfl, rfl, rfl, fun k => rfl⟩

/-- Witness for C9 at a concrete disabled reload. -/
theorem reloadFromConfig_disabled_clears_witness :
    cfgDisabled.regionAlertsEnabled = false ∧
    (reloadFromConfig cfgDisabled monitorBefore).pollTimerRunning = false ∧
    (reloadFromConfig cfgDisabled monitorBefore).ruleStateById = [] ∧
    (reloadFromConfig cfgDisabled monitorBefore).internalCaptureSurfacesByCharacter = [] ∧
    stateLookup (reloadFromConfig cfgDisabled monitorBefore).ruleStateById "k" = defaultRuleState :=
  ⟨rfl,
   (reloadFromConfig_disabled_clears cfgDisabled monitorBefore rfl).1,
   (reloadFromConfig_disabled_clears cfgDisabled monitorBefore rfl).2.1,
   (reloadFromConfig_disabled_clears cfgDisabled monitorBefore rfl).2.2.1,
   (reloadFromConfig_disabled_clears cfgDisabled monitorBefore rfl).2.2.2 "k"⟩

/-- Claim C10: for rules whose trimmed id is empty, the effective key is
determined solely by the trimmed character name, trimmed label, and the four
region components formatted to exactly four decimal places; two distinct
rules agreeing on all of these get the same key and therefore share a single
rule-state entry in any store. -/
theorem effectiveRuleKey_composite_collision (r1 r2 : RegionAlertRule)
    (_hne : r1 ≠ r2)
    (h1 : qtTrimmed r1.id = "") (h2 : qtTrimmed r2.id = "")
    (hc : qtTrimmed r1.characterName = qtTrimmed r2.characterName)
    (hl : qtTrimmed r1.label = qtTrimmed r2.label)
    (hx : formatF4 r1.regionNormalized.x = formatF4 r2.regionNormalized.x)
    (hy : formatF4 r1.regionNormalized.y = formatF4 r2.regionNormalized.y)
    (hw : formatF4 r1.regionNormalized.w = formatF4 r2.regionNormalized.w)
    (hh : formatF4 r1.regionNormalized.h = formatF4 r2.regionNormalized.h) :
    effectiveRuleKey r1 = effectiveRuleKey r2 ∧
    ∀ m : StateMap, stateLookup m (effectiveRuleKey r1) = stateLookup m (effectiveRuleKey r2) := by
  have hk : effectiveRuleKey r1 = effectiveRuleKey r2 := by
    simp [effectiveRuleKey, h1, h2, hc, hl, hx, hy, hw, hh]
  exact ⟨hk, fun m => by rw [hk]⟩

/-- Witness for C10: the two distinct concrete rules share one key and one
state entry. -/
theorem effectiveRuleKey_composite_collision_witness :
    ruleKeyA ≠ ruleKeyB ∧
    effectiveRuleKey ruleKeyA = effectiveRuleKey ruleKeyB ∧
    stateLookup [] (effectiveRuleKey ruleKeyA) = stateLookup [] (effectiveRuleKey ruleKeyB) := by
  have hx : formatF4 ruleKeyA.regionNormalized.x = formatF4 ruleKeyB.regionNormalized.x := by
    show formatScaledF4 (round ((1234/10000 : ℚ) * 10000)) =
         formatScaledF4 (round ((12341/100000 : ℚ) * 10000))
    rw [show round ((1234/10000 : ℚ) * 10000) = (1234 : ℤ) by norm_num [round_eq],
        show round ((12341/100000 : ℚ) * 10000) = (1234 : ℤ) by norm_num [round_eq]]
  have hne : ruleKeyA ≠ ruleKeyB := by
    intro hcontra
    have : ruleKeyA.regionNormalized.x = ruleKeyB.regionNormalized.x := by rw [hcontra]
    norm_num [ruleKeyA, ruleKeyB] at this
  refine ⟨hne, ?_, ?_⟩
  · exact (effectiveRuleKey_composite_collision ruleKeyA ruleKeyB hne
      (by decide) (by decide) rfl rfl hx rfl rfl rfl).1
  · exact (effectiveRuleKey_composite_collision ruleKeyA ruleKeyB hne
      (by decide) (by decide) rfl rfl hx rfl rfl rfl).2 []

/-- A matching pipeline key leaves the state untouched (line 806 test false). -/
theorem applyPipelineKey_matched (s : RuleState) (k : String)
    (h : s.capturePipelineKey = k) : applyPipelineKey s k = s := by
  simp [applyPipelineKey, h]

/-- A differing pipeline key clears baseline and streak and adopts the new
key (lines 806-814). -/
theorem applyPipelineKey_changed (s : RuleState) (k : String)
    (h : s.capturePipelineKey ≠ k) :
    applyPipelineKey s k =
      {s with capturePipelineKey := k, baselineFrame := none,
              consecutiveFramesAboveThreshold := 0} := by
  simp [applyPipelineKey, h]

/-- With a matching pipeline key, a preprocessed-size capture and an
established preprocessed-size baseline, one tick reduces to the comparison
step on the state with the failure counter cleared. -/
theorem evaluateCapturedFrame_compare (cooldownMs now : ℤ) (rule : RegionAlertRule)
    (s : RuleState) (c : Frame) (meth : String) (b : Frame)
    (hkey : qtTrimmed meth = s.capturePipelineKey)
    (hb : s.baselineFrame = some b)
    (hbw : b.width = kPreprocessSize) (hbh : b.height = kPreprocessSize)
    (hcw : c.width = kPreprocessSize) (hch : c.height = kPreprocessSize) :
    evaluateCapturedFrame cooldownMs now rule s c meth =
      compareAndUpdate cooldownMs now rule {s with consecutiveCaptureFailures := 0} b c := by
  obtain ⟨bf, streak, cdu, fails, key⟩ := s
  simp only at hb hkey
  unfold evaluateCapturedFrame
  rw [applyPipelineKey_matched _ _ hkey.symm]
  unfold evaluateAfterKey
  simp only [preprocessForDiff, resampleFrame_id c hcw hch, hb]
  have : ¬ (b.width ≠ c.width ∨ b.height ≠ c.height) := by
    rw [hbw, hbh, hcw, hch]; simp
  rw [if_neg this]

/-- The comparison step's trigger branch (lines 864-872): above threshold,
cooldown expired, streak minimum reached after the increment. -/
theorem compareAndUpdate_trigger (cooldownMs now : ℤ) (rule : RegionAlertRule)
    (s : RuleState) (b c : Frame)
    (habove : (qBoundZ 1 rule.thresholdPercent 100 : ℚ) ≤ changedPercent (some b) (some c))
    (hcool : s.cooldownUntilMs ≤ now)
    (hstreak : 1 ≤ s.consecutiveFramesAboveThreshold) :
    compareAndUpdate cooldownMs now rule s b c =
      ({s with cooldownUntilMs := now + cooldownMs,
               consecutiveFramesAboveThreshold := 0,
               baselineFrame := some c},
       some ⟨qtTrimmed rule.characterName, rule.id, rule.label,
             changedPercent (some b) (some c)⟩) := by
  have ht : s.cooldownUntilMs ≤ now ∧
      kConsecutiveFramesRequired ≤ s.consecutiveFramesAboveThreshold + 1 :=
    ⟨hcool, by unfold kConsecutiveFramesRequired; omega⟩
  simp only [compareAndUpdate, if_pos habove, if_pos ht]

/-- The comparison step's first-rise branch (lines 841-846 with no trigger
and no cooldown): above threshold with a zero streak and an expired
cooldown increments the streak and, exceptionally, leaves the baseline
unchanged. -/
theorem compareAndUpdate_firstRise (cooldownMs now : ℤ) (rule : RegionAlertRule)
    (s : RuleState) (b c : Frame)
    (habove : (qBoundZ 1 rule.thresholdPercent 100 : ℚ) ≤ changedPercent (some b) (some c))
    (hcool : s.cooldownUntilMs ≤ now)
    (hstreak : s.consecutiveFramesAboveThreshold = 0) :
    compareAndUpdate cooldownMs now rule s b c =
      ({s with consecutiveFramesAboveThreshold := s.consecutiveFramesAboveThreshold + 1},
       none) := by
  have ht : ¬ (s.cooldownUntilMs ≤ now ∧
      kConsecutiveFramesRequired ≤ s.consecutiveFramesAboveThreshold + 1) := by
    unfold kConsecutiveFramesRequired; omega
  have hnc : ¬ now < s.cooldownUntilMs := by omega
  simp only [compareAndUpdate, if_pos habove, if_neg ht, if_neg hnc]

/-- The comparison step's cooldown-absorb branch (lines 873-879): above
threshold while cooling down zeroes the streak and adopts the current frame
as baseline, with no alert. -/
theorem compareAndUpdate_absorb (cooldownMs now : ℤ) (rule : RegionAlertRule)
    (s : RuleState) (b c : Frame)
    (habove : (qBoundZ 1 rule.thresholdPercent 100 : ℚ) ≤ changedPercent (some b) (some c))
    (hcool : now < s.cooldownUntilMs) :
    compareAndUpdate cooldownMs now rule s b c =
      ({s with consecutiveFramesAboveThreshold := 0, baselineFrame := some c}, none) := by
  have ht : ¬ (s.cooldownUntilMs ≤ now ∧
      kConsecutiveFramesRequired ≤ s.consecutiveFramesAboveThreshold + 1) := by
    unfold kConsecutiveFramesRequired; omega
  simp only [compareAndUpdate, if_pos habove, if_neg ht, if_pos hcool]

/-- The comparison step's below-threshold branch (lines 884-885): zero the
streak and adopt the current frame as baseline. -/
theorem compareAndUpdate_below (cooldownMs now : ℤ) (rule : RegionAlertRule)
    (s : RuleState) (b c : Frame)
    (hbelow : ¬ (qBoundZ 1 rule.thresholdPercent 100 : ℚ) ≤ changedPercent (some b) (some c)) :
    compareAndUpdate cooldownMs now rule s b c =
      ({s with consecutiveFramesAboveThreshold := 0, baselineFrame := some c}, none) := by
  simp only [compareAndUpdate, if_neg hbelow]

/-- Every pixel changes between the all-zero and all-255 frames. -/
theorem countChangedPixels_zero_full : countChangedPixels zeroFrame96 fullFrame96 = 9216 := by
  decide

/-- Every pixel changes between the all-255 and all-zero frames. -/
theorem countChangedPixels_full_zero : countChangedPixels fullFrame96 zeroFrame96 = 9216 := by
  decide

/-- The all-zero versus all-255 comparison scores exactly 100. -/
theorem changedPercent_zero_full :
    changedPercent (some zeroFrame96) (some fullFrame96) = 100 := by
  simp only [changedPercent, countChangedPixels_zero_full]
  norm_num [zeroFrame96, fullFrame96, constFrame]

/-- The all-255 versus all-zero comparison scores exactly 100. -/
theorem changedPercent_full_zero :
    changedPercent (some fullFrame96) (some zeroFrame96) = 100 := by
  simp only [changedPercent, countChangedPixels_full_zero]
  norm_num [zeroFrame96, fullFrame96, constFrame]

/-- The clamped threshold of `ruleFifty` is 50, and 50 ≤ 100 in `ℚ`. -/
theorem ruleFifty_threshold_le_100 :
    (qBoundZ 1 ruleFifty.thresholdPercent 100 : ℚ) ≤ 100 := by
  norm_num [qBoundZ, ruleFifty]

/-- Claim C1: from a state with an established (preprocessed-size) baseline,
zero streak, no cooldown in effect and no capture failures, two consecutive
ticks whose frames each score at or above the clamped threshold against the
current baseline (which tick one leaves unchanged) emit the alert exactly
once — on the second tick, not the first — carrying the rule's (trimmed)
character name, id, label, and the second tick's score. -/
theorem risingEdge_triggers_on_second_tick
    (cooldownMs now1 now2 : ℤ) (rule : RegionAlertRule) (s : RuleState)
    (b c1 c2 : Frame) (m1 m2 : String)
    (hb : s.baselineFrame = some b)
    (hbw : b.width = kPreprocessSize) (hbh : b.height = kPreprocessSize)
    (hc1w : c1.width = kPreprocessSize) (hc1h : c1.height = kPreprocessSize)
    (hc2w : c2.width = kPreprocessSize) (hc2h : c2.height = kPreprocessSize)
    (hstreak : s.consecutiveFramesAboveThreshold = 0)
    (_hfail : s.consecutiveCaptureFailures = 0)
    (hcool : s.cooldownUntilMs ≤ now1) (h12 : now1 ≤ now2)
    (hk1 : qtTrimmed m1 = s.capturePipelineKey)
    (hk2 : qtTrimmed m2 = s.capturePipelineKey)
    (hs1 : (qBoundZ 1 rule.thresholdPercent 100 : ℚ) ≤ changedPercent (some b) (some c1))
    (hs2 : (qBoundZ 1 rule.thresholdPercent 100 : ℚ) ≤ changedPercent (some b) (some c2)) :
    (evaluateCapturedFrame cooldownMs now1 rule s c1 m1).2 = none ∧
    (evaluateCapturedFrame cooldownMs now2 rule
        (evaluateCapturedFrame cooldownMs now1 rule s c1 m1).1 c2 m2).2 =
      some ⟨qtTrimmed rule.characterName, rule.id, rule.label,
            changedPercent (some b) (some c2)⟩ := by
  have e1 : evaluateCapturedFrame cooldownMs now1 rule s c1 m1 =
      ({s with consecutiveCaptureFailures := 0, consecutiveFramesAboveThreshold := 1}, none) := by
    rw [evaluateCapturedFrame_compare cooldownMs now1 rule s c1 m1 b hk1 hb hbw hbh hc1w hc1h,
        compareAndUpdate_firstRise cooldownMs now1 rule _ b c1 hs1 (by simpa using hcool)
          (by simpa using hstreak)]
    simp [hstreak]
  have e2 : evaluateCapturedFrame cooldownMs now2 rule
      ({s with consecutiveCaptureFailures := 0, consecutiveFramesAboveThreshold := 1} : RuleState)
      c2 m2 =
      (({({s with consecutiveCaptureFailures := 0,
                  consecutiveFramesAboveThreshold := 1} : RuleState) with
          cooldownUntilMs := now2 + cooldownMs,
          consecutiveFramesAboveThreshold := 0,
          baselineFrame := some c2} : RuleState),
       some ⟨qtTrimmed rule.characterName, rule.id, rule.label,
             changedPercent (some b) (some c2)⟩) := by
    rw [evaluateCapturedFrame_compare cooldownMs now2 rule _ c2 m2 b (by simpa using hk2)
          (by simpa using hb) hbw hbh hc2w hc2h,
        compareAndUpdate_trigger cooldownMs now2 rule _ b c2 hs2
          (by simpa using le_trans hcool h12) (by simp)]
  refine ⟨by rw [e1], ?_⟩
  rw [e1]
  simpa using congrArg Prod.snd e2

/-- Witness for C1: with baseline all-zero, two all-255 ticks at threshold
50 alert exactly once, on the second tick, with score 100. -/
theorem risingEdge_triggers_on_second_tick_witness :
    (evaluateCapturedFrame 5000 1000 ruleFifty baselineReadyState fullFrame96 "k").2 = none ∧
    (evaluateCapturedFrame 5000 1100 ruleFifty
        (evaluateCapturedFrame 5000 1000 ruleFifty baselineReadyState fullFrame96 "k").1
        fullFrame96 "k").2 =
      some ⟨"Pilot", "r1", "L", (100 : ℚ)⟩ := by
  have hs : (qBoundZ 1 ruleFifty.thresholdPercent 100 : ℚ) ≤
      changedPercent (some zeroFrame96) (some fullFrame96) := by
    rw [changedPercent_zero_full]; exact ruleFifty_threshold_le_100
  have h := risingEdge_triggers_on_second_tick 5000 1000 1100 ruleFifty baselineReadyState
    zeroFrame96 fullFrame96 fullFrame96 "k" "k" rfl rfl rfl rfl rfl rfl rfl rfl rfl
    (by decide) (by decide) (by decide) (by decide) hs hs
  refine ⟨h.1, ?_⟩
  have h2 := h.2
  rw [changedPercent_zero_full] at h2
  have hq : qtTrimmed "Pilot" = "Pilot" := by decide
  rw [show ruleFifty.characterName = "Pilot" from rfl, hq] at h2
  exact h2

/-- Claim C3: when the trimmed capture method of a successful capture
differs from the stored `capturePipelineKey`, the tick clears the baseline
and streak, adopts the new key, and installs the (preprocessed) new frame as
baseline on that same tick, with no comparison outcome and no alert possible
regardless of pixel content; the failure counter is cleared by the
successful capture and the cooldown deadline is untouched. -/
theorem pipelineKeyChange_reinitializes_baseline
    (cooldownMs now : ℤ) (rule : RegionAlertRule) (s : RuleState)
    (c : Frame) (meth : String)
    (hkey : qtTrimmed meth ≠ s.capturePipelineKey)
    (hcw : c.width = kPreprocessSize) (hch : c.height = kPreprocessSize) :
    evaluateCapturedFrame cooldownMs now rule s c meth =
      ({s with capturePipelineKey := qtTrimmed meth,
               baselineFrame := some c,
               consecutiveFramesAboveThreshold := 0,
               consecutiveCaptureFailures := 0}, none) := by
  unfold evaluateCapturedFrame
  rw [applyPipelineKey_changed s (qtTrimmed meth) (Ne.symm hkey)]
  unfold evaluateAfterKey
  simp only [preprocessForDiff, resampleFrame_id c hcw hch]

/-- Witness for C3: a capture with method `"new"` against stored key
`"old"` re-initializes the state to the new frame and key, clearing streak
and failures, keeping the cooldown deadline, and emits nothing. -/
theorem pipelineKeyChange_reinitializes_baseline_witness :
    qtTrimmed "new" ≠ staleKeyState.capturePipelineKey ∧
    evaluateCapturedFrame 5000 1000 ruleFifty staleKeyState fullFrame96 "new" =
      (⟨some fullFrame96, 0, 7777, 0, "new"⟩, none) := by
  refine ⟨by decide, ?_⟩
  rw [pipelineKeyChange_reinitializes_baseline 5000 1000 ruleFifty staleKeyState fullFrame96
      "new" (by decide) rfl rfl]
  rfl

/-- Claim C5: on every tick that reaches the comparison step (matching
pipeline key, established size-matching baseline), the baseline is replaced
by the current frame in every outcome except exactly one: score at or above
the clamped threshold, cooldown expired, and the incremented streak still
below the required minimum `kConsecutiveFramesRequired = 2` — in that single
case the baseline is left unchanged so the next tick still compares against
the pre-change frame. -/
theorem baseline_replacement_policy
    (cooldownMs now : ℤ) (rule : RegionAlertRule) (s : RuleState)
    (b c : Frame) (meth : String)
    (hkey : qtTrimmed meth = s.capturePipelineKey)
    (hb : s.baselineFrame = some b)
    (hbw : b.width = kPreprocessSize) (hbh : b.height = kPreprocessSize)
    (hcw : c.width = kPreprocessSize) (hch : c.height = kPreprocessSize) :
    (evaluateCapturedFrame cooldownMs now rule s c meth).1.baselineFrame =
      (if (qBoundZ 1 rule.thresholdPercent 100 : ℚ) ≤ changedPercent (some b) (some c) ∧
          s.cooldownUntilMs ≤ now ∧
          s.consecutiveFramesAboveThreshold + 1 < kConsecutiveFramesRequired
       then some b else some c) := by
  rw [evaluateCapturedFrame_compare cooldownMs now rule s c meth b hkey hb hbw hbh hcw hch]
  by_cases ha : (qBoundZ 1 rule.thresholdPercent 100 : ℚ) ≤ changedPercent (some b) (some c)
  · by_cases hcool : s.cooldownUntilMs ≤ now
    · by_cases hstreak : s.consecutiveFramesAboveThreshold + 1 < kConsecutiveFramesRequired
      · have hs0 : s.consecutiveFramesAboveThreshold = 0 := by
          simp only [kConsecutiveFramesRequired] at hstreak; omega
        rw [compareAndUpdate_firstRise cooldownMs now rule _ b c ha (by simpa using hcool)
            (by simpa using hs0)]
        rw [if_pos ⟨ha, hcool, hstreak⟩]
        simpa using hb
      · have hs1 : 1 ≤ s.consecutiveFramesAboveThreshold := by
          simp only [kConsecutiveFramesRequired] at hstreak; omega
        rw [compareAndUpdate_trigger cooldownMs now rule _ b c ha (by simpa using hcool)
            (by simpa using hs1)]
        rw [if_neg (by tauto)]
    · rw [compareAndUpdate_absorb cooldownMs now rule _ b c ha
          (by simpa using not_le.mp hcool)]
      rw [if_neg (by tauto)]
  · rw [compareAndUpdate_below cooldownMs now rule _ b c ha]
    rw [if_neg (by tauto)]

/-- Witness for C5 at the exceptional case: above threshold, no cooldown,
zero streak — the baseline stays the pre-change frame. -/
theorem baseline_replacement_policy_witness :
    (evaluateCapturedFrame 5000 1000 ruleFifty baselineReadyState fullFrame96 "k").1.baselineFrame =
      some zeroFrame96 := by
  rw [baseline_replacement_policy 5000 1000 ruleFifty baselineReadyState zeroFrame96 fullFrame96
      "k" (by decide) rfl rfl rfl rfl rfl]
  rw [if_pos ⟨by rw [changedPercent_zero_full]; exact ruleFifty_threshold_le_100,
              by decide, by decide⟩]

/-- With a matching key, established size-matching baseline, above-threshold
score and a tick strictly inside the cooldown window, one tick absorbs: no
alert, streak zeroed, the current frame adopted as baseline, failure counter
cleared, everything else (the cooldown deadline in particular) unchanged. -/
theorem evaluateCapturedFrame_absorb (cooldownMs now : ℤ) (rule : RegionAlertRule)
    (s : RuleState) (c : Frame) (meth : String) (b : Frame)
    (hkey : qtTrimmed meth = s.capturePipelineKey)
    (hb : s.baselineFrame = some b)
    (hbw : b.width = kPreprocessSize) (hbh : b.height = kPreprocessSize)
    (hcw : c.width = kPreprocessSize) (hch : c.height = kPreprocessSize)
    (hnow : now < s.cooldownUntilMs)
    (habove : (qBoundZ 1 rule.thresholdPercent 100 : ℚ) ≤ changedPercent (some b) (some c)) :
    evaluateCapturedFrame cooldownMs now rule s c meth =
      ({s with consecutiveCaptureFailures := 0,
               consecutiveFramesAboveThreshold := 0,
               baselineFrame := some c}, none) := by
  rw [evaluateCapturedFrame_compare cooldownMs now rule s c meth b hkey hb hbw hbh hcw hch,
      compareAndUpdate_absorb cooldownMs now rule _ b c habove (by simpa using hnow)]

/-- Claim C2: over any sequence of successful-capture ticks that all fall
strictly before the state's cooldown deadline and all score at or above the
clamped threshold against the evolving baseline (`allAbsorb`), no alert is
emitted at all, and the state trace is exactly the absorb trace the spec
describes: on each tick the streak is set to zero and the current frame is
adopted as the new baseline, with the cooldown deadline carried through
unchanged. -/
theorem cooldown_suppresses_retrigger (cooldownMs : ℤ) (rule : RegionAlertRule)
    (ticks : List CooldownTick) (s : RuleState)
    (h : allAbsorb cooldownMs rule s ticks = true) :
    (runTicks cooldownMs rule ticks s).2 = [] ∧
    statesAfter cooldownMs rule ticks s = absorbTrace s ticks := by
  induction ticks generalizing s with
  | nil => exact ⟨rfl, rfl⟩
  | cons t ts ih =>
    rw [allAbsorb, Bool.and_eq_true] at h
    obtain ⟨hok, hrest⟩ := h
    cases hbf : s.baselineFrame with
    | none => rw [absorbTickOk, hbf] at hok; simp at hok
    | some b =>
      rw [absorbTickOk, hbf] at hok
      simp only [Bool.and_eq_true, decide_eq_true_eq] at hok
      obtain ⟨⟨⟨⟨⟨hnow, hkey⟩, hfw⟩, hfh⟩, ⟨hbw, hbh⟩⟩, hscore⟩ := hok
      have estep : evaluateCapturedFrame cooldownMs t.now rule s t.frame t.method =
          ({s with consecutiveCaptureFailures := 0,
                   consecutiveFramesAboveThreshold := 0,
                   baselineFrame := some t.frame}, none) :=
        evaluateCapturedFrame_absorb cooldownMs t.now rule s t.frame t.method b hkey hbf
          hbw hbh hfw hfh hnow hscore
      rw [estep] at hrest
      have ihr := ih _ hrest
      refine ⟨?_, ?_⟩
      · rw [runTicks, estep]
        simpa using ihr.1
      · rw [statesAfter, estep, absorbTrace]
        simpa using ihr.2

/-- Witness for C2: a concrete in-cooldown above-threshold tick sequence
emits nothing and follows the absorb trace. -/
theorem cooldown_suppresses_retrigger_witness :
    allAbsorb 7000 ruleFifty coolingState coolingTicks = true ∧
    (runTicks 7000 ruleFifty coolingTicks coolingState).2 = [] ∧
    statesAfter 7000 ruleFifty coolingTicks coolingState = absorbTrace coolingState coolingTicks := by
  have hall : allAbsorb 7000 ruleFifty coolingState coolingTicks = true := by
    rw [show coolingTicks = [⟨1000, fullFrame96, "k"⟩] from rfl]
    rw [allAbsorb, allAbsorb, Bool.and_true]
    rw [absorbTickOk]
    rw [show coolingState.baselineFrame = some zeroFrame96 from rfl]
    simp only [Bool.and_eq_true, decide_eq_true_eq]
    refine ⟨⟨⟨⟨⟨by decide, by decide⟩, rfl⟩, rfl⟩, ⟨rfl, rfl⟩⟩, ?_⟩
    rw [changedPercent_zero_full]
    exact ruleFifty_threshold_le_100
  exact ⟨hall, (cooldown_suppresses_retrigger 7000 ruleFifty coolingTicks coolingState hall).1,
         (cooldown_suppresses_retrigger 7000 ruleFifty coolingTicks coolingState hall).2⟩

/-- Counterexample to claim C6 as stated: with the rule's character window
unresolvable (`windowAvailable = false`), the claim predicts `noteFailure`
and no comparison and no alert for this tick; but the visible-thumbnail
fallback capture does not use the source window handle, and when it
succeeds the tick proceeds normally — here it compares, triggers, and emits
an alert, and the failure counter ends at 0 instead of being incremented. -/
theorem pollRules_windowUnavailable_counterexample :
    (pollOneRule 5000 1000 false none (some (fullFrame96, "k")) ruleFifty risingState).2 =
      some ⟨"Pilot", "r1", "L", (100 : ℚ)⟩ ∧
    (pollOneRule 5000 1000 false none (some (fullFrame96, "k")) ruleFifty risingState).1.consecutiveCaptureFailures = 0 := by
  have e : pollOneRule 5000 1000 false none (some (fullFrame96, "k")) ruleFifty risingState =
      evaluateCapturedFrame 5000 1000 ruleFifty risingState fullFrame96 "k" := rfl
  have e2 : evaluateCapturedFrame 5000 1000 ruleFifty risingState fullFrame96 "k" =
      compareAndUpdate 5000 1000 ruleFifty
        {risingState with consecutiveCaptureFailures := 0} zeroFrame96 fullFrame96 :=
    evaluateCapturedFrame_compare 5000 1000 ruleFifty risingState fullFrame96 "k" zeroFrame96
      (by decide) rfl rfl rfl rfl rfl
  have habove : (qBoundZ 1 ruleFifty.thresholdPercent 100 : ℚ) ≤
      changedPercent (some zeroFrame96) (some fullFrame96) := by
    rw [changedPercent_zero_full]; exact ruleFifty_threshold_le_100
  have e3 := compareAndUpdate_trigger 5000 1000 ruleFifty
    ({risingState with consecutiveCaptureFailures := 0} : RuleState) zeroFrame96 fullFrame96
    habove (by decide) (by decide)
  rw [e, e2, e3]
  refine ⟨?_, rfl⟩
  rw [changedPercent_zero_full]
  rfl

/-- Claim C6 as amended: for an enabled rule with a non-empty character
name, on a tick where the character's window is unresolvable or invalid or
minimized, the internal cropped-thumbnail capture fails; if additionally the
visible-thumbnail fallback capture (which does not consult the source
window) fails, the poller calls `noteCaptureFailure` for the rule's key and
moves on, performing no comparison and emitting no alert. -/
theorem pollRules_windowUnavailable_and_fallbackFail (cooldownMs now : ℤ)
    (windowAvailable : Bool) (internalRest fallbackCapture : Option (Frame × String))
    (rule : RegionAlertRule) (s : RuleState)
    (hwin : windowAvailable = false) (hfb : fallbackCapture = none) :
    pollOneRule cooldownMs now windowAvailable internalRest fallbackCapture rule s =
      (noteFailureState s, none) := by
  subst hwin hfb
  rfl

/-- Witness for the amended C6: unavailable window plus failed fallback ends
in `noteFailureState` with no alert. -/
theorem pollRules_windowUnavailable_and_fallbackFail_witness :
    pollOneRule 5000 1000 false (some (fullFrame96, "m")) none ruleFifty risingState =
      (noteFailureState risingState, none) :=
  pollRules_windowUnavailable_and_fallbackFail 5000 1000 false (some (fullFrame96, "m")) none
    ruleFifty risingState rfl rfl

/-- The `[0,1]` clamp really lands in `[0,1]`. -/
theorem qBoundQ_zero_one_mem (x : ℚ) : 0 ≤ qBoundQ 0 x 1 ∧ qBoundQ 0 x 1 ≤ 1 := by
  unfold qBoundQ
  constructor
  · exact le_max_left 0 _
  · exact max_le (by norm_num) (min_le_left 1 x)

/-- For a clamped normalized coordinate `a` of a zero-extent crop edge pair,
the pixelized right edge clamps to exactly one pixel past the pixelized left
edge. -/
theorem degenerate_crop_right_edge (a : ℚ) (W : ℤ) (hW : 0 < W) (h0 : 0 ≤ a) (h1 : a ≤ 1) :
    qBoundZ (qBoundZ 0 ⌊a * (W : ℚ)⌋ (W - 1) + 1) ⌈a * (W : ℚ)⌉ W =
      qBoundZ 0 ⌊a * (W : ℚ)⌋ (W - 1) + 1 := by
  have hWQ : (0 : ℚ) ≤ (W : ℚ) := by exact_mod_cast hW.le
  have hf0 : 0 ≤ ⌊a * (W : ℚ)⌋ := Int.floor_nonneg.mpr (mul_nonneg h0 hWQ)
  have hfW : ⌊a * (W : ℚ)⌋ ≤ W := by
    have hle : a * (W : ℚ) ≤ (W : ℚ) := mul_le_of_le_one_left hWQ h1
    have := Int.floor_le_floor hle
    simpa using this
  have hcf : ⌈a * (W : ℚ)⌉ ≤ ⌊a * (W : ℚ)⌋ + 1 := Int.ceil_le_floor_add_one _
  have hfc : ⌊a * (W : ℚ)⌋ ≤ ⌈a * (W : ℚ)⌉ := Int.floor_le_ceil _
  unfold qBoundZ
  omega

/-- A crop of zero width and height pixelizes to a single source pixel. -/
theorem cropPixelCorners_degenerate (crop : RectQ) (W H : ℤ) (hW : 0 < W) (hH : 0 < H)
    (hw : crop.w = 0) (hh : crop.h = 0) :
    ∃ cl ct : ℤ, cropPixelCorners crop W H = (cl, ct, cl + 1, ct + 1) := by
  refine ⟨qBoundZ 0 ⌊qBoundQ 0 crop.x 1 * (W : ℚ)⌋ (W - 1),
          qBoundZ 0 ⌊qBoundQ 0 crop.y 1 * (H : ℚ)⌋ (H - 1), ?_⟩
  have hn : crop.normalized = ⟨crop.x, crop.y, 0, 0⟩ := by
    simp [RectQ.normalized, hw, hh]
  simp only [cropPixelCorners, hn, RectQ.left, RectQ.top, RectQ.right, RectQ.bottom, add_zero]
  rw [degenerate_crop_right_edge (qBoundQ 0 crop.x 1) W hW (qBoundQ_zero_one_mem crop.x).1
        (qBoundQ_zero_one_mem crop.x).2,
      degenerate_crop_right_edge (qBoundQ 0 crop.y 1) H hH (qBoundQ_zero_one_mem crop.y).1
        (qBoundQ_zero_one_mem crop.y).2]

/-- Aspect-trimming a one-pixel crop leaves it unchanged, whatever the
thumbnail aspect: the trim targets are clamped to at least one pixel and at
most the crop's own single pixel. -/
theorem aspectTrimmedCrop_unit (cl ct tW tH : ℤ) :
    aspectTrimmedCrop cl ct (cl + 1) (ct + 1) tW tH = (cl, ct, cl + 1, ct + 1) := by
  have h1 : cl + 1 - cl = 1 := by omega
  have h2 : ct + 1 - ct = 1 := by omega
  simp only [aspectTrimmedCrop, h1, h2, max_self]
  split_ifs with ha hb
  · rw [min_eq_right (le_max_left 1 _)]
    norm_num
  · rw [min_eq_right (le_max_left 1 _)]
    norm_num
  · rfl

/-- Claim C8 as amended: for a crop that is degenerate in both axes (zero
width and height — below any positive epsilon), the code clamps the pixel
crop to a single source pixel, and the mapping returns either the empty
region (when the source region misses that pixel — a per-tick failure) or
exactly the full-frame rectangle (when it overlaps); it never produces a
proper sub-rectangle. -/
theorem mapSource_degenerateCrop_fullFrame_or_empty
    (sourceRegion thumbnailCrop : RectQ) (sourceW sourceH thumbW thumbH : ℤ)
    (hw : thumbnailCrop.w = 0) (hh : thumbnailCrop.h = 0) :
    mapSourceRegionToThumbnailRegion sourceRegion thumbnailCrop
      sourceW sourceH thumbW thumbH = none ∨
    mapSourceRegionToThumbnailRegion sourceRegion thumbnailCrop
      sourceW sourceH thumbW thumbH = some fullFrameRectQ := by
  by_cases hg : sourceW ≤ 0 ∨ sourceH ≤ 0 ∨ thumbW ≤ 0 ∨ thumbH ≤ 0
  · left
    simp only [mapSourceRegionToThumbnailRegion, if_pos hg]
  · have hg' := hg
    push_neg at hg'
    obtain ⟨hW, hH, _, _⟩ := hg'
    obtain ⟨cl, ct, hcp⟩ := cropPixelCorners_degenerate thumbnailCrop sourceW sourceH hW hH hw hh
    simp only [mapSourceRegionToThumbnailRegion, if_neg hg, hcp, aspectTrimmedCrop_unit]
    set sp := regionToPixels sourceRegion sourceW sourceH with hsp
    by_cases hspc : sp.w ≤ 0 ∨ sp.h ≤ 0
    · left
      rw [if_pos hspc]
    · rw [if_neg hspc]
      by_cases hov : min (sp.x + sp.w) (cl + 1) ≤ max sp.x cl ∨
          min (sp.y + sp.h) (ct + 1) ≤ max sp.y ct
      · left
        rw [if_pos hov]
      · right
        rw [if_neg hov]
        push_neg at hov
        obtain ⟨hovx, hovy⟩ := hov
        have hxl : max sp.x cl - cl = 0 := by omega
        have hxr : min (sp.x + sp.w) (cl + 1) - cl = 1 := by omega
        have hyt : max sp.y ct - ct = 0 := by omega
        have hyb : min (sp.y + sp.h) (ct + 1) - ct = 1 := by omega
        have heffw : max (1 : ℤ) (cl + 1 - cl) = 1 := by omega
        have heffh : max (1 : ℤ) (ct + 1 - ct) = 1 := by omega
        rw [heffw, heffh, hxl, hxr, hyt, hyb]
        norm_num [qBoundQ, RectQ.fromCorners, RectQ.normalized, fullFrameRectQ]

/-- Pixelization of `missRegion` on a 100×100 source. -/
theorem regionToPixels_missRegion : regionToPixels missRegion 100 100 = ⟨50, 50, 40, 40⟩ := by
  simp only [regionToPixels, missRegion, RectQ.normalized, RectQ.left, RectQ.right,
             RectQ.top, RectQ.bottom, qBoundQ, qBoundZ]
  norm_num [min_def, max_def, abs]

/-- Pixelization of `hitRegion` on a 100×100 source. -/
theorem regionToPixels_hitRegion : regionToPixels hitRegion 100 100 = ⟨0, 0, 50, 50⟩ := by
  simp only [regionToPixels, hitRegion, RectQ.normalized, RectQ.left, RectQ.right,
             RectQ.top, RectQ.bottom, qBoundQ, qBoundZ]
  norm_num [min_def, max_def, abs]

/-- The degenerate `pointCrop` pixelizes to the single pixel (25, 25). -/
theorem cropPixelCorners_pointCrop : cropPixelCorners pointCrop 100 100 = (25, 25, 26, 26) := by
  simp only [cropPixelCorners, pointCrop, RectQ.normalized, RectQ.left, RectQ.right,
             RectQ.top, RectQ.bottom, qBoundQ, qBoundZ]
  norm_num [min_def, max_def, abs]

/-- Aspect-trimming the one-pixel crop (25, 25, 26, 26) leaves it
unchanged. -/
theorem aspectTrimmedCrop_pointCrop :
    aspectTrimmedCrop 25 25 26 26 100 100 = (25, 25, 26, 26) := by
  simpa using aspectTrimmedCrop_unit 25 25 100 100

/-- Counterexample to claim C8 as stated: with the aspect-trimmed crop
degenerate (zero width and height, hence below any epsilon), the claim
predicts a fail-over to the full-frame rectangle rather than a failing or
empty result; but when the source region does not overlap the clamped
one-pixel crop, the code returns the empty region (mapping failure), not the
full frame. -/
theorem mapSource_degenerateCrop_counterexample :
    cropDegenerate pointCrop ∧
    mapSourceRegionToThumbnailRegion missRegion pointCrop 100 100 100 100 = none := by
  constructor
  · left
    norm_num [cropDegenerate, pointCrop, RectQ.normalized]
  · simp only [mapSourceRegionToThumbnailRegion, cropPixelCorners_pointCrop,
               regionToPixels_missRegion, aspectTrimmedCrop_pointCrop]
    norm_num [min_def, max_def]

/-- Witness for the amended C8 at a concrete degenerate crop. -/
theorem mapSource_degenerateCrop_fullFrame_or_empty_witness :
    pointCrop.w = 0 ∧ pointCrop.h = 0 ∧
    (mapSourceRegionToThumbnailRegion hitRegion pointCrop 100 100 100 100 = none ∨
     mapSourceRegionToThumbnailRegion hitRegion pointCrop 100 100 100 100 = some fullFrameRectQ) :=
  ⟨rfl, rfl,
   mapSource_degenerateCrop_fullFrame_or_empty hitRegion pointCrop 100 100 100 100 rfl rfl⟩

/-- The full-frame branch of the amended C8 is reachable: with the source
region overlapping the clamped one-pixel crop, the mapping really returns
the full-frame rectangle. -/
theorem mapSource_degenerateCrop_fullFrame_example :
    mapSourceRegionToThumbnailRegion hitRegion pointCrop 100 100 100 100 =
      some fullFrameRectQ := by
  simp only [mapSourceRegionToThumbnailRegion, cropPixelCorners_pointCrop,
             regionToPixels_hitRegion, aspectTrimmedCrop_pointCrop]
  norm_num [min_def, max_def, abs, qBoundQ, RectQ.fromCorners, RectQ.normalized, fullFrameRectQ]
